import Mathlib

/-!
Shallow embedding of `weather.py`, a command-line OpenWeatherMap client:
the `WeatherAPI` fetch layer (`get_current_weather`, `get_forecast`), the
two formatters (`format_current_weather`, `format_forecast`) and the data
flow of `main`, together with theorems about the properties the
specification states for them.

Python values flowing through the program are modelled by a `Json` type;
Python machine behaviour that the program relies on (dict lookup and its
KeyError, `str.capitalize`, `datetime.fromtimestamp` rendering, string
`sorted`, list slicing) is embedded by functions defined below, each next
to the place it is used.  Exceptions are modelled by `Except String`
carrying the exception text.
-/

/-- Parsed JSON value, the shape `response.json()` produces.  Python dicts
preserve insertion order, so objects are association lists. -/
inductive Json where
  | null : Json
  | str : String → Json
  | num : Int → Json
  | arr : List Json → Json
  | obj : List (String × Json) → Json

/-- First binding of a key in an association list, as Python dict lookup. -/
def alistFind (kvs : List (String × Json)) (k : String) : Option Json :=
  match kvs with
  | [] => none
  | (key, v) :: rest => if key = k then some v else alistFind rest k

/-- Python `d[k]`: value when present, `KeyError` otherwise.  `str` of a
Python `KeyError` is the repr of the key, i.e. the key in single quotes;
subscripting a non-dict raises a TypeError. -/
def jGet (j : Json) (k : String) : Except String Json :=
  match j with
  | .obj kvs =>
      match alistFind kvs k with
      | some v => .ok v
      | none => .error ("'" ++ k ++ "'")
  | _ => .error "object is not subscriptable"

/-- Python `l[i]` on a list: value when in range, `IndexError` otherwise. -/
def jIdx (j : Json) (i : Nat) : Except String Json :=
  match j with
  | .arr xs =>
      match xs.get? i with
      | some v => .ok v
      | none => .error "list index out of range"
  | _ => .error "object is not subscriptable"

mutual

/-- Python `repr` of a JSON-shaped value (as printed inside dict reprs). -/
def pyRepr : Json → String
  | .null => "None"
  | .str s => "'" ++ s ++ "'"
  | .num n => toString n
  | .arr xs => "[" ++ pyReprList xs ++ "]"
  | .obj kvs => "\x7b" ++ pyReprObj kvs ++ "\x7d"

/-- Comma-separated reprs of the elements of a Python list. -/
def pyReprList : List Json → String
  | [] => ""
  | [x] => pyRepr x
  | x :: xs => pyRepr x ++ ", " ++ pyReprList xs

/-- Comma-separated `'key': value` reprs of the entries of a Python dict. -/
def pyReprObj : List (String × Json) → String
  | [] => ""
  | [(k, v)] => "'" ++ k ++ "': " ++ pyRepr v
  | (k, v) :: kvs => "'" ++ k ++ "': " ++ pyRepr v ++ ", " ++ pyReprObj kvs

end

/-- Python `str` of a JSON-shaped value, as an f-string interpolates it:
a string interpolates as itself, everything else as its repr. -/
def pyStr (j : Json) : String :=
  match j with
  | .str s => s
  | v => pyRepr v

/-- Python `str.capitalize()`: first character title-cased, all remaining
characters lower-cased (embedded for ASCII text). -/
def pyCapitalize (s : String) : String :=
  match s.toList with
  | [] => ""
  | c :: rest => ⟨c.toUpper :: rest.map Char.toLower⟩

/-- Python `list[:n]` slicing: the first `n` elements for `n ≥ 0`, all but
the last `-n` elements for negative `n`. -/
def pySlice {α : Type} (l : List α) (n : Int) : List α :=
  if 0 ≤ n then l.take n.toNat else l.take (l.length - (-n).toNat)

/-- Lexicographic code-point comparison of character lists, the order
Python string comparison uses (proved below to agree with `≤` on
`String`). -/
def listCharLeb : List Char → List Char → Bool
  | [], _ => true
  | _ :: _, [] => false
  | a :: as, b :: bs => if a < b then true else if b < a then false else listCharLeb as bs

/-- Python `a <= b` on strings: lexicographic by code point. -/
def strLeb (a b : String) : Bool :=
  listCharLeb a.data b.data

/-- Fixed-width decimal digits of `n`, most significant first (meaningful
for `n < 10 ^ w`). -/
def padDigits : Nat → Nat → List Char
  | 0, _ => []
  | w + 1, n => Nat.digitChar (n / 10 ^ w) :: padDigits w (n % 10 ^ w)

/-- C `%0wd` zero padding, as strftime uses for every numeric field. -/
def zeroPad (w n : Nat) : String :=
  if n < 10 ^ w then ⟨padDigits w n⟩ else toString n

/-- Gregorian calendar date (year, month, day) of a day count since the
Unix epoch; the standard era-based civil-from-days computation performed
by the C library behind `datetime.fromtimestamp`. -/
def civilFromDays (z : Nat) : Nat × Nat × Nat :=
  let z2 := z + 719468
  let era := z2 / 146097
  let doe := z2 % 146097
  let yoe := (doe - doe / 1460 + doe / 36524 - doe / 146097) / 365
  let y := yoe + era * 400
  let doy := doe - (365 * yoe + yoe / 4 - yoe / 100)
  let mp := (5 * doy + 2) / 153
  let d := doy - (153 * mp + 2) / 5 + 1
  let m := if mp < 10 then mp + 3 else mp - 9
  (if m ≤ 2 then y + 1 else y, m, d)

/-- Modelled from the spec: `datetime.fromtimestamp` applies the local
timezone to an epoch value.  The C library localtime is not part of the
repository; it is embedded as adding a fixed offset `tz` of seconds, for
adjusted timestamps that are nonnegative (every claim is about such). -/
def localEpoch (tz : Nat) (n : Int) : Nat :=
  (n + (tz : Int)).toNat

/-- `strftime("%H:%M")` of a local epoch second count. -/
def timeHM (u : Nat) : String :=
  zeroPad 2 (u / 3600 % 24) ++ ":" ++ zeroPad 2 (u / 60 % 60)

/-- The ISO `YYYY-MM-DD` rendering of a civil date. -/
def renderYmd (y m d : Nat) : String :=
  zeroPad 4 y ++ "-" ++ zeroPad 2 m ++ "-" ++ zeroPad 2 d

/-- `strftime("%Y-%m-%d")` of a local epoch second count. -/
def dateKey (u : Nat) : String :=
  let ymd := civilFromDays (u / 86400)
  renderYmd ymd.1 ymd.2.1 ymd.2.2

/-- Decimal value of an ASCII digit character. -/
def charDigitVal (c : Char) : Nat := c.toNat - 48

/-- `datetime.strptime(day, "%Y-%m-%d")`: read the year, month and day
back out of a ten-character ISO date key (garbage shapes, which the
program never produces, parse as zeros). -/
def parseDate (s : String) : Nat × Nat × Nat :=
  match s.toList with
  | [y1, y2, y3, y4, _, m1, m2, _, d1, d2] =>
      (charDigitVal y1 * 1000 + charDigitVal y2 * 100 + charDigitVal y3 * 10 + charDigitVal y4,
       charDigitVal m1 * 10 + charDigitVal m2,
       charDigitVal d1 * 10 + charDigitVal d2)
  | _ => (0, 0, 0)

/-- Day count since 0000-03-01 of a civil date, used for the weekday of a
date as `strftime("%A")` computes it. -/
def rataDays (y m d : Nat) : Nat :=
  let yAdj := if m ≤ 2 then y - 1 else y
  let era := yAdj / 400
  let yoe := yAdj % 400
  let mp := if m ≤ 2 then m + 9 else m - 3
  let doy := (153 * mp + 2) / 5 + d - 1
  era * 146097 + (yoe * 365 + yoe / 4 - yoe / 100 + doy)

/-- Locale C full weekday names, Monday first. -/
def weekdayNames : List String :=
  ["Monday", "Tuesday", "Wednesday", "Thursday", "Friday", "Saturday", "Sunday"]

/-- Locale C abbreviated month names. -/
def monthAbbrevs : List String :=
  ["Jan", "Feb", "Mar", "Apr", "May", "Jun", "Jul", "Aug", "Sep", "Oct", "Nov", "Dec"]

/-- `date_obj.strftime("%A, %b %d")` for a `date_obj` parsed back from an
ISO day key. -/
def dayHeaderText (day : String) : String :=
  let ymd := parseDate day
  weekdayNames.getD ((rataDays ymd.1 ymd.2.1 ymd.2.2 + 2) % 7) "" ++ ", " ++
    monthAbbrevs.getD (ymd.2.1 - 1) "" ++ " " ++ zeroPad 2 ymd.2.2

/-- A query-string parameter value; `requests` sends strings and numbers
and drops parameters whose value is Python `None`. -/
inductive PVal where
  | s : String → PVal
  | i : Int → PVal
  | skipped : PVal
deriving DecidableEq

/-- One `requests.get(endpoint, params=params)` call: the URL and the
ordered parameter dict. -/
structure HttpRequest where
  url : String
  params : List (String × PVal)
deriving DecidableEq

/-- The provider's reply: HTTP status code and parsed JSON body. -/
structure HttpResponse where
  status_code : Int
  body : Json

/-- The network, as the pure environment the fetch layer queries. -/
def HttpBehaviour : Type := HttpRequest → HttpResponse

/-- Client state set up by `WeatherAPI.__init__`; the key is optional
because `main` passes `os.getenv`, which yields `None` when unset. -/
structure WeatherAPI where
  api_key : Option String
  base_url : String
deriving DecidableEq

/-- `WeatherAPI(api_key)`: store the key and the fixed provider base URL. -/
def WeatherAPI.init (key : Option String) : WeatherAPI :=
  ⟨key, "https://api.openweathermap.org/data/2.5"⟩

/-- The `appid` parameter: the stored key, dropped when it is `None`. -/
def appidParam (key : Option String) : PVal :=
  match key with
  | some k => .s k
  | none => .skipped

/-- The provider message of an error body: its `"message"` field,
`"Unknown error"` when absent. -/
def errorMessageOf (body : Json) : String :=
  match body with
  | .obj kvs =>
      match alistFind kvs "message" with
      | some v => pyStr v
      | none => "Unknown error"
  | _ => "Unknown error"

/-- Shared non-200 handling of both fetchers: raise
`API Error (<status>): <provider message>`. -/
def apiError (status : Int) (body : Json) : String :=
  "API Error (" ++ toString status ++ "): " ++ errorMessageOf body

/-- The request `get_current_weather` builds: the `/weather` endpoint with
`appid`, `units=imperial` and either `zip` or `q` as `<location>,<country>`. -/
def currentParams (self : WeatherAPI) (location : String) (isZip : Bool)
    (countryCode : String) : HttpRequest :=
  let params := [("appid", appidParam self.api_key), ("units", PVal.s "imperial")]
  let params := if isZip then params ++ [("zip", PVal.s (location ++ "," ++ countryCode))]
    else params ++ [("q", PVal.s (location ++ "," ++ countryCode))]
  ⟨self.base_url ++ "/weather", params⟩

/-- `WeatherAPI.get_current_weather`: one GET to the current-weather
endpoint; the body on HTTP 200, an API error otherwise. -/
def WeatherAPI.get_current_weather (self : WeatherAPI) (http : HttpBehaviour)
    (location : String) (isZip : Bool) (countryCode : String) : Except String Json :=
  let response := http (currentParams self location isZip countryCode)
  if response.status_code = 200 then .ok response.body
  else .error (apiError response.status_code response.body)

/-- The request `get_forecast` builds: the `/forecast` endpoint with
`appid`, `units=imperial`, `cnt = min(days * 8, 40)` and either `zip` or
`q` as `<location>,<country>`. -/
def forecastParams (self : WeatherAPI) (location : String) (isZip : Bool)
    (countryCode : String) (days : Int) : HttpRequest :=
  let params := [("appid", appidParam self.api_key), ("units", PVal.s "imperial"),
    ("cnt", PVal.i (min (days * 8) 40))]
  let params := if isZip then params ++ [("zip", PVal.s (location ++ "," ++ countryCode))]
    else params ++ [("q", PVal.s (location ++ "," ++ countryCode))]
  ⟨self.base_url ++ "/forecast", params⟩

/-- `WeatherAPI.get_forecast`: one GET to the forecast endpoint; the body
on HTTP 200, an API error otherwise. -/
def WeatherAPI.get_forecast (self : WeatherAPI) (http : HttpBehaviour)
    (location : String) (isZip : Bool) (countryCode : String) (days : Int) :
    Except String Json :=
  let response := http (forecastParams self location isZip countryCode days)
  if response.status_code = 200 then .ok response.body
  else .error (apiError response.status_code response.body)

/-- Python `.capitalize()` applied to a looked-up value: only strings have
the attribute, anything else raises an AttributeError. -/
def asCapitalizable (j : Json) : Except String String :=
  match j with
  | .str s => .ok s
  | _ => .error "object has no attribute capitalize"

/-- A value passed to `datetime.fromtimestamp`: must be a number. -/
def asTimestamp (j : Json) : Except String Int :=
  match j with
  | .num n => .ok n
  | _ => .error "an integer is required"

/-- `format_current_weather`: project the parsed current-weather object
onto the dict the function returns, looking fields up in source order
(`name`, `sys.country`, `weather[0].description`, `main.temp`,
`main.feels_like`, `main.humidity`, `wind.speed`, `sys.sunrise`,
`sys.sunset`).  The country is extracted but the returned dict has no
entry for it, exactly as in the source. -/
def format_current_weather (tz : Nat) (weather_data : Json) :
    Except String (List (String × Json)) := do
  let city ← jGet weather_data "name"
  let _country ← jGet (← jGet weather_data "sys") "country"
  let weather_desc := pyCapitalize (← asCapitalizable
    (← jGet (← jIdx (← jGet weather_data "weather") 0) "description"))
  let temp ← jGet (← jGet weather_data "main") "temp"
  let feels_like ← jGet (← jGet weather_data "main") "feels_like"
  let humidity ← jGet (← jGet weather_data "main") "humidity"
  let wind_speed ← jGet (← jGet weather_data "wind") "speed"
  let sunrise_time := timeHM (localEpoch tz
    (← asTimestamp (← jGet (← jGet weather_data "sys") "sunrise")))
  let sunset_time := timeHM (localEpoch tz
    (← asTimestamp (← jGet (← jGet weather_data "sys") "sunset")))
  .ok [("location", city), ("condition", .str weather_desc), ("temperature", temp),
    ("feelsLike", feels_like), ("humidity", humidity), ("wind_speed", wind_speed),
    ("sunrise", .str sunrise_time), ("sunset", .str sunset_time)]

/-- The day key a forecast sample is bucketed under:
`datetime.fromtimestamp(item["dt"]).strftime("%Y-%m-%d")`. -/
def itemKey (tz : Nat) (item : Json) : Except String String := do
  let dt ← asTimestamp (← jGet item "dt")
  .ok (dateKey (localEpoch tz dt))

/-- Append an item to the bucket of key `d`, creating the bucket at the
end when the key is new — Python dict insertion-order semantics of
`forecasts_by_day[day].append(item)`. -/
def addToBucket (m : List (String × List Json)) (d : String) (it : Json) :
    List (String × List Json) :=
  match m with
  | [] => [(d, [it])]
  | (k, v) :: rest =>
      if k = d then (k, v ++ [it]) :: rest else (k, v) :: addToBucket rest d it

/-- The grouping loop of `format_forecast`: fold the sample list into
day buckets, propagating the first exception a sample raises. -/
def groupFold (tz : Nat) (m : List (String × List Json)) :
    List Json → Except String (List (String × List Json))
  | [] => .ok m
  | it :: rest => do
      let day ← itemKey tz it
      groupFold tz (addToBucket m day it) rest

/-- The bucket stored under a day key (Python `forecasts_by_day[day]`,
empty for keys never inserted). -/
def lookupBucket (m : List (String × List Json)) (d : String) : List Json :=
  match m with
  | [] => []
  | (k, v) :: rest => if k = d then v else lookupBucket rest d

/-- `sorted(forecasts_by_day.keys())`: the day keys in Python string
order, which is the lexicographic code-point order of Lean strings. -/
def sortedDayKeys (m : List (String × List Json)) : List String :=
  List.insertionSort (fun a b => strLeb a b = true) (m.map Prod.fst)

/-- One `f"{time}: {temp}Â°F - {weather_desc}\n"` line of the forecast
body (the source file literally contains the mojibake `Â°`). -/
def slotLine (tz : Nat) (item : Json) : Except String String := do
  let time := timeHM (localEpoch tz (← asTimestamp (← jGet item "dt")))
  let temp ← jGet (← jGet item "main") "temp"
  let weather_desc := pyCapitalize (← asCapitalizable
    (← jGet (← jIdx (← jGet item "weather") 0) "description"))
  .ok (time ++ ": " ++ pyStr temp ++ "Â°F - " ++ weather_desc ++ "\n")

/-- The inner loop of `format_forecast`: the concatenated slot lines of
one day bucket. -/
def slotLines (tz : Nat) : List Json → Except String String
  | [] => .ok ""
  | item :: rest => do
      .ok ((← slotLine tz item) ++ (← slotLines tz rest))

/-- One day block: blank line, `strftime("%A, %b %d")` header, a rule of
`=` of the header length plus one, then the day's slot lines. -/
def dayBlock (tz : Nat) (m : List (String × List Json)) (day : String) :
    Except String String := do
  let day_str := dayHeaderText day
  .ok ("\n" ++ day_str ++ ":\n" ++ String.mk (List.replicate (day_str.length + 1) '=') ++
    "\n" ++ (← slotLines tz (lookupBucket m day)))

/-- The outer loop of `format_forecast` over the retained days. -/
def dayBlocks (tz : Nat) (m : List (String × List Json)) :
    List String → Except String String
  | [] => .ok ""
  | day :: rest => do
      .ok ((← dayBlock tz m day) ++ (← dayBlocks tz m rest))

/-- The sample list of a forecast payload: `forecast_data["list"]` must be
iterable. -/
def asSampleList (j : Json) : Except String (List Json) :=
  match j with
  | .arr xs => .ok xs
  | _ => .error "object is not iterable"

/-- `format_forecast`: header naming the payload's city and country, then
samples grouped by local calendar day, the distinct day keys sorted and
cut down to `days` by Python slicing, and each retained day rendered as a
header plus its slot lines. -/
def format_forecast (tz : Nat) (forecast_data : Json) (days : Int) :
    Except String String := do
  let city ← jGet (← jGet forecast_data "city") "name"
  let country ← jGet (← jGet forecast_data "city") "country"
  let items ← asSampleList (← jGet forecast_data "list")
  let forecasts_by_day ← groupFold tz [] items
  let output := "\nWeather Forecast for " ++ pyStr city ++ ", " ++ pyStr country ++ ":\n"
  let shown := pySlice (sortedDayKeys forecasts_by_day) days
  .ok (output ++ (← dayBlocks tz forecasts_by_day shown))

/-- Python `repr` of the dict `format_current_weather` returns, as
`print` renders it. -/
def pyDictRepr (kvs : List (String × Json)) : String :=
  "\x7b" ++ pyReprObj kvs ++ "\x7d"

/-- The parsed command line: positional location, `--zip`, `--country`
(default "us"), `--api-key` (optional), `--forecast`, `--days`
(default 3). -/
structure Args where
  location : String
  zip : Bool
  country : String
  api_key : Option String
  forecast : Bool
  days : Int

/-- The process environment `main` reads: `os.getenv("OPENWEATHER_API_KEY")`. -/
structure Env where
  openweather_api_key : Option String

/-- The data flow of `main` after argument parsing, as the list of lines
it prints: construct the client from the environment key (the parsed
`--api-key` value is never consulted), fetch and print current weather,
fetch and print the forecast when `--forecast` is set, and convert the
first exception anywhere in that chain into a single `Error: <message>`
line, keeping whatever was already printed. -/
def mainRun (tz : Nat) (env : Env) (http : HttpBehaviour) (args : Args) : List String :=
  let weather_api := WeatherAPI.init env.openweather_api_key
  match weather_api.get_current_weather http args.location args.zip args.country with
  | .error e => ["Error: " ++ e]
  | .ok current_weather =>
      match format_current_weather tz current_weather with
      | .error e => ["Error: " ++ e]
      | .ok record =>
          let printed := pyDictRepr record
          if args.forecast then
            match weather_api.get_forecast http args.location args.zip args.country args.days with
            | .error e => [printed, "Error: " ++ e]
            | .ok forecast =>
                match format_forecast tz forecast args.days with
                | .error e => [printed, "Error: " ++ e]
                | .ok s => [printed, s]
          else [printed]

mutual

/-- Decidable equality on JSON values (the derive handler does not cover
this nested inductive). -/
def jsonDecEq : (a b : Json) → Decidable (a = b)
  | .null, .null => isTrue rfl
  | .null, .str _ => isFalse (fun h => Json.noConfusion h)
  | .null, .num _ => isFalse (fun h => Json.noConfusion h)
  | .null, .arr _ => isFalse (fun h => Json.noConfusion h)
  | .null, .obj _ => isFalse (fun h => Json.noConfusion h)
  | .str _, .null => isFalse (fun h => Json.noConfusion h)
  | .str a, .str b =>
      match decEq a b with
      | isTrue h => isTrue (h ▸ rfl)
      | isFalse h => isFalse (fun hh => Json.noConfusion hh (fun he => h he))
  | .str _, .num _ => isFalse (fun h => Json.noConfusion h)
  | .str _, .arr _ => isFalse (fun h => Json.noConfusion h)
  | .str _, .obj _ => isFalse (fun h => Json.noConfusion h)
  | .num _, .null => isFalse (fun h => Json.noConfusion h)
  | .num _, .str _ => isFalse (fun h => Json.noConfusion h)
  | .num a, .num b =>
      match decEq a b with
      | isTrue h => isTrue (h ▸ rfl)
      | isFalse h => isFalse (fun hh => Json.noConfusion hh (fun he => h he))
  | .num _, .arr _ => isFalse (fun h => Json.noConfusion h)
  | .num _, .obj _ => isFalse (fun h => Json.noConfusion h)
  | .arr _, .null => isFalse (fun h => Json.noConfusion h)
  | .arr _, .str _ => isFalse (fun h => Json.noConfusion h)
  | .arr _, .num _ => isFalse (fun h => Json.noConfusion h)
  | .arr a, .arr b =>
      match jsonListDecEq a b with
      | isTrue h => isTrue (h ▸ rfl)
      | isFalse h => isFalse (fun hh => Json.noConfusion hh (fun he => h he))
  | .arr _, .obj _ => isFalse (fun h => Json.noConfusion h)
  | .obj _, .null => isFalse (fun h => Json.noConfusion h)
  | .obj _, .str _ => isFalse (fun h => Json.noConfusion h)
  | .obj _, .num _ => isFalse (fun h => Json.noConfusion h)
  | .obj _, .arr _ => isFalse (fun h => Json.noConfusion h)
  | .obj a, .obj b =>
      match jsonKvsDecEq a b with
      | isTrue h => isTrue (h ▸ rfl)
      | isFalse h => isFalse (fun hh => Json.noConfusion hh (fun he => h he))

/-- Decidable equality on lists of JSON values. -/
def jsonListDecEq : (a b : List Json) → Decidable (a = b)
  | [], [] => isTrue rfl
  | [], _ :: _ => isFalse (fun h => List.noConfusion h)
  | _ :: _, [] => isFalse (fun h => List.noConfusion h)
  | x :: xs, y :: ys =>
      match jsonDecEq x y with
      | isTrue h1 =>
          match jsonListDecEq xs ys with
          | isTrue h2 => isTrue (h1 ▸ h2 ▸ rfl)
          | isFalse h2 => isFalse (fun hh => List.noConfusion hh (fun _ ht => h2 ht))
      | isFalse h1 => isFalse (fun hh => List.noConfusion hh (fun hh1 _ => h1 hh1))

/-- Decidable equality on JSON object entry lists. -/
def jsonKvsDecEq : (a b : List (String × Json)) → Decidable (a = b)
  | [], [] => isTrue rfl
  | [], _ :: _ => isFalse (fun h => List.noConfusion h)
  | _ :: _, [] => isFalse (fun h => List.noConfusion h)
  | (k1, v1) :: xs, (k2, v2) :: ys =>
      match decEq k1 k2 with
      | isTrue hk =>
          match jsonDecEq v1 v2 with
          | isTrue hv =>
              match jsonKvsDecEq xs ys with
              | isTrue ht => isTrue (hk ▸ hv ▸ ht ▸ rfl)
              | isFalse ht => isFalse (fun hh => List.noConfusion hh (fun _ h2 => ht h2))
          | isFalse hv => isFalse (fun hh => List.noConfusion hh
              (fun h1 _ => hv (congrArg Prod.snd h1)))
      | isFalse hk => isFalse (fun hh => List.noConfusion hh
          (fun h1 _ => hk (congrArg Prod.fst h1)))

end

instance : DecidableEq Json := jsonDecEq

/-- Numeric value `y*10000 + m*100 + d` of a civil date triple: its
chronological index (calendar dates compare chronologically exactly as
these numbers compare). -/
def dateNum (ymd : Nat × Nat × Nat) : Nat :=
  ymd.1 * 10000 + ymd.2.1 * 100 + ymd.2.2

/-- A day key of the shape the formatter produces: the ISO rendering of
its own parse, with all three fields inside rendering width. -/
def wellFormedKey (k : String) : Prop :=
  (parseDate k).1 < 10000 ∧ (parseDate k).2.1 < 100 ∧ (parseDate k).2.2 < 100 ∧
    k = renderYmd (parseDate k).1 (parseDate k).2.1 (parseDate k).2.2

instance (k : String) : Decidable (wellFormedKey k) := by
  unfold wellFormedKey; infer_instance

/-- Whatever day key a sample yields, that key is well formed (vacuous
when keying the sample raises). -/
def itemKeyWellFormed (tz : Nat) (it : Json) : Prop :=
  ∀ k, itemKey tz it = .ok k → wellFormedKey k

instance (tz : Nat) (it : Json) : Decidable (itemKeyWellFormed tz it) :=
  match h : itemKey tz it with
  | .ok k =>
      if hw : wellFormedKey k then
        isTrue (fun k2 hk2 => by
          rw [h] at hk2
          injection hk2 with hh
          exact hh ▸ hw)
      else
        isFalse (fun hall => hw (hall k h))
  | .error e =>
      isTrue (fun k2 hk2 => by
        rw [h] at hk2
        cases hk2)

/-- A provider behaviour that rejects every request: HTTP 401 with an
`Invalid API key` message, the example of the specification. -/
def http401 : HttpBehaviour :=
  fun _ => ⟨401, .obj [("message", .str "Invalid API key")]⟩

/-- A concrete well-shaped current-weather payload (country `GB`, a value
distinct from every other value of the payload). -/
def sampleCurrent : Json :=
  .obj [("name", .str "London"),
    ("sys", .obj [("country", .str "GB"), ("sunrise", .num 1700030000),
      ("sunset", .num 1700070000)]),
    ("weather", .arr [.obj [("description", .str "light rain")]]),
    ("main", .obj [("temp", .num 50), ("feels_like", .num 48), ("humidity", .num 80)]),
    ("wind", .obj [("speed", .num 10)])]

/-- The same payload with a condition description whose tail holds
upper-case characters. -/
def sampleCurrentCaps : Json :=
  .obj [("name", .str "London"),
    ("sys", .obj [("country", .str "GB"), ("sunrise", .num 1700030000),
      ("sunset", .num 1700070000)]),
    ("weather", .arr [.obj [("description", .str "light RAIN")]]),
    ("main", .obj [("temp", .num 50), ("feels_like", .num 48), ("humidity", .num 80)]),
    ("wind", .obj [("speed", .num 10)])]

/-- The dict `format_current_weather` returns on `sampleCurrentCaps`. -/
def sampleRecordCaps : List (String × Json) :=
  [("location", .str "London"), ("condition", .str "Light rain"),
    ("temperature", .num 50), ("feelsLike", .num 48), ("humidity", .num 80),
    ("wind_speed", .num 10), ("sunrise", .str "06:33"), ("sunset", .str "17:40")]

/-- The dict `format_current_weather` returns on `sampleCurrent`. -/
def sampleRecordGB : List (String × Json) :=
  [("location", .str "London"), ("condition", .str "Light rain"),
    ("temperature", .num 50), ("feelsLike", .num 48), ("humidity", .num 80),
    ("wind_speed", .num 10), ("sunrise", .str "06:33"), ("sunset", .str "17:40")]

/-- Concrete 3-hour sample, 2023-11-14 12:00 UTC. -/
def sampleItem1 : Json :=
  .obj [("dt", .num 1699963200), ("main", .obj [("temp", .num 60)]),
    ("weather", .arr [.obj [("description", .str "clear sky")]])]

/-- Concrete 3-hour sample, 2023-11-14 15:00 UTC. -/
def sampleItem2 : Json :=
  .obj [("dt", .num 1699974000), ("main", .obj [("temp", .num 58)]),
    ("weather", .arr [.obj [("description", .str "few clouds")]])]

/-- Concrete 3-hour sample, 2023-11-15 10:00 UTC. -/
def sampleItem3 : Json :=
  .obj [("dt", .num 1700042400), ("main", .obj [("temp", .num 55)]),
    ("weather", .arr [.obj [("description", .str "light rain")]])]

/-- Concrete 3-hour sample, 2023-11-15 13:00 UTC. -/
def sampleItem4 : Json :=
  .obj [("dt", .num 1700053200), ("main", .obj [("temp", .num 57)]),
    ("weather", .arr [.obj [("description", .str "overcast clouds")]])]

/-- Concrete 3-hour sample, 2023-11-16 10:00 UTC. -/
def sampleItem5 : Json :=
  .obj [("dt", .num 1700128800), ("main", .obj [("temp", .num 50)]),
    ("weather", .arr [.obj [("description", .str "scattered clouds")]])]

/-- Five concrete 3-hour forecast samples spanning the three days
2023-11-14, 2023-11-15 and 2023-11-16 (timestamps in ascending order). -/
def sampleItems : List Json :=
  [sampleItem1, sampleItem2, sampleItem3, sampleItem4, sampleItem5]

/-- The day buckets the grouping loop builds from `sampleItems` at a
zero offset. -/
def sampleBuckets : List (String × List Json) :=
  [("2023-11-14", [sampleItem1, sampleItem2]),
   ("2023-11-15", [sampleItem3, sampleItem4]),
   ("2023-11-16", [sampleItem5])]

/-- A concrete forecast payload built from `sampleItems`. -/
def sampleForecast : Json :=
  .obj [("city", .obj [("name", .str "Austin"), ("country", .str "US")]),
    ("list", .arr sampleItems)]

/-- Decidable equality of `Except` results (core provides none). -/
instance {ε α : Type} [DecidableEq ε] [DecidableEq α] : DecidableEq (Except ε α) :=
  fun a b =>
    match a, b with
    | .ok x, .ok y =>
        match decEq x y with
        | isTrue h => isTrue (h ▸ rfl)
        | isFalse h => isFalse (fun hh => Except.noConfusion hh (fun he => h he))
    | .ok _, .error _ => isFalse (fun h => Except.noConfusion h)
    | .error _, .ok _ => isFalse (fun h => Except.noConfusion h)
    | .error x, .error y =>
        match decEq x y with
        | isTrue h => isTrue (h ▸ rfl)
        | isFalse h => isFalse (fun hh => Except.noConfusion hh (fun he => h he))

/-- C1: for every requested forecast day count, `get_forecast` builds its
request with a `cnt` parameter equal to `min(days * 8, 40)`; in
particular a day count of 10 builds exactly the same request as a day
count of 5, so values above 5 silently truncate to the cap. -/
theorem forecast_cnt_is_min_days8_40 (self : WeatherAPI) (location : String)
    (isZip : Bool) (countryCode : String) (days : Int) :
    (forecastParams self location isZip countryCode days).params.lookup "cnt"
        = some (PVal.i (min (days * 8) 40))
    ∧ forecastParams self location isZip countryCode 10
        = forecastParams self location isZip countryCode 5 := by
  constructor
  · cases isZip <;> simp [forecastParams, List.lookup]
  · cases isZip <;> norm_num [forecastParams]

/-- C8: two invocations differing only in the parsed `--api-key` value
print exactly the same lines for every environment and network behaviour:
`main` constructs the client from the environment key and never consults
the flag. -/
theorem api_key_flag_never_consulted (tz : Nat) (env : Env) (http : HttpBehaviour)
    (args : Args) (k1 k2 : Option String) :
    mainRun tz env http { args with api_key := k1 }
      = mainRun tz env http { args with api_key := k2 } := rfl

/-- C2: each fetch raises an exception exactly when the HTTP status is
not 200, and the exception text is `API Error (<status>): <provider
message>`, the provider message being the body's `message` field and
`Unknown error` when that field is absent. -/
theorem fetch_error_iff_bad_status (self : WeatherAPI) (http : HttpBehaviour)
    (location : String) (isZip : Bool) (countryCode : String) (days : Int)
    (status : Int) (body : Json) :
    (http (currentParams self location isZip countryCode) = ⟨status, body⟩ →
      ((∃ e, self.get_current_weather http location isZip countryCode = .error e)
          ↔ status ≠ 200)
      ∧ (status ≠ 200 → self.get_current_weather http location isZip countryCode
          = .error ("API Error (" ++ toString status ++ "): " ++ errorMessageOf body)))
    ∧ (http (forecastParams self location isZip countryCode days) = ⟨status, body⟩ →
      ((∃ e, self.get_forecast http location isZip countryCode days = .error e)
          ↔ status ≠ 200)
      ∧ (status ≠ 200 → self.get_forecast http location isZip countryCode days
          = .error ("API Error (" ++ toString status ++ "): " ++ errorMessageOf body)))
    ∧ (∀ kvs msg, alistFind kvs "message" = some (.str msg) →
        errorMessageOf (.obj kvs) = msg)
    ∧ (∀ kvs, alistFind kvs "message" = none →
        errorMessageOf (.obj kvs) = "Unknown error") := by
  refine ⟨fun h => ?_, fun h => ?_, fun kvs msg hm => ?_, fun kvs hm => ?_⟩
  · unfold WeatherAPI.get_current_weather
    rw [h]
    by_cases hs : status = 200 <;> simp [hs, apiError]
  · unfold WeatherAPI.get_forecast
    rw [h]
    by_cases hs : status = 200 <;> simp [hs, apiError]
  · simp [errorMessageOf, hm, pyStr]
  · simp [errorMessageOf, hm]

/-- C2 witness: a 401 reply whose body carries `Invalid API key` makes
`get_current_weather` raise exactly `API Error (401): Invalid API key`. -/
theorem fetch_error_iff_bad_status_witness :
    (WeatherAPI.init (some "k")).get_current_weather http401 "London" false "us"
      = .error "API Error (401): Invalid API key" := by
  have h := (fetch_error_iff_bad_status (WeatherAPI.init (some "k")) http401
    "London" false "us" 3 401 (Json.obj [("message", Json.str "Invalid API key")])).1
    rfl
  exact (h.2 (by decide)).trans (by rfl)

/-- C4 counterexample: at a requested day count of 0 the fetch layer
builds `cnt = 0`, which is not `8 * d` for any day count `d` in the
claimed clamping range 1..5 — day counts below 1 are not brought into
range. -/
theorem forecast_days_below_one_not_clamped :
    (forecastParams (WeatherAPI.init (some "k")) "London" false "us" 0).params.lookup "cnt"
        = some (PVal.i 0)
    ∧ ¬ ∃ d : Int, 1 ≤ d ∧ d ≤ 5 ∧ (0 : Int) = d * 8 := by
  refine ⟨by decide, ?_⟩
  rintro ⟨d, h1, h5, he⟩
  omega

/-- C4 amended: only the upper end is enforced, and only on the sample
count: the `cnt` parameter is `min(days * 8, 40)`, so day counts of 5 and
above all yield 40 samples, while day counts of 5 and below — including
0 and negative values — pass through as `days * 8` unchanged. -/
theorem forecast_cnt_upper_cap_only (self : WeatherAPI) (location : String)
    (isZip : Bool) (countryCode : String) (days : Int) :
    (forecastParams self location isZip countryCode days).params.lookup "cnt"
        = some (PVal.i (min (days * 8) 40))
    ∧ (5 ≤ days → min (days * 8) 40 = 40)
    ∧ (days ≤ 5 → min (days * 8) 40 = days * 8) := by
  refine ⟨?_, fun h => by omega, fun h => by omega⟩
  cases isZip <;> simp [forecastParams, List.lookup]

/-- C4 amended witness: day count 7 caps to 40 samples, day count 0
passes through as 0 samples. -/
theorem forecast_cnt_upper_cap_only_witness :
    (forecastParams (WeatherAPI.init (some "k")) "London" false "us" 7).params.lookup "cnt"
        = some (PVal.i 40)
    ∧ (forecastParams (WeatherAPI.init (some "k")) "London" false "us" 0).params.lookup "cnt"
        = some (PVal.i 0) := by
  have h7 := forecast_cnt_upper_cap_only (WeatherAPI.init (some "k")) "London" false "us" 7
  have h0 := forecast_cnt_upper_cap_only (WeatherAPI.init (some "k")) "London" false "us" 0
  refine ⟨h7.1.trans ?_, h0.1.trans ?_⟩
  · rw [h7.2.1 (by norm_num)]
  · rw [h0.2.2 (by norm_num)]; norm_num

/-- C5 counterexample: on a description with an upper-case tail the
formatter emits `Light rain`, not the tail-preserving `Light RAIN` the
claim predicts — `str.capitalize` lowercases every character after the
first. -/
theorem capitalize_does_not_preserve_tail :
    format_current_weather 0 sampleCurrentCaps = .ok sampleRecordCaps
    ∧ alistFind sampleRecordCaps "condition" = some (.str "Light rain")
    ∧ Json.str "Light rain" ≠ Json.str "Light RAIN" := by
  refine ⟨by decide, by decide, by decide⟩

/-- C3 counterexample: on a well-shaped payload whose country is `GB`,
the record `format_current_weather` returns has no `country` entry and no
value equal to `GB` at all — the country is read from the payload but
dropped from the record. -/
theorem current_record_has_no_country :
    format_current_weather 0 sampleCurrent = .ok sampleRecordGB
    ∧ Except.bind (jGet sampleCurrent "sys") (fun s => jGet s "country")
        = .ok (.str "GB")
    ∧ Json.str "GB" ∉ sampleRecordGB.map Prod.snd
    ∧ alistFind sampleRecordGB "country" = none := by
  refine ⟨by decide, by decide, by decide, by decide⟩

/-- C3 amended: on a well-shaped current-weather payload the formatter
returns a structured record (an ordered dict, not a display string) that
holds the location name, the capitalized condition description, the
temperature, the feels-like temperature, the humidity, the wind speed and
the sunrise and sunset epochs rendered as `HH:MM` — but, contrary to the
original claim, no entry for the country, which is extracted and then
dropped. -/
theorem format_current_weather_record (tz : Nat) (w sys warr w0 mn wnd : Json)
    (city country temp feels hum speed : Json) (desc : String) (sr ss : Int)
    (hname : jGet w "name" = .ok city)
    (hsys : jGet w "sys" = .ok sys)
    (hcountry : jGet sys "country" = .ok country)
    (hweather : jGet w "weather" = .ok warr)
    (hw0 : jIdx warr 0 = .ok w0)
    (hdesc : jGet w0 "description" = .ok (.str desc))
    (hmain : jGet w "main" = .ok mn)
    (htemp : jGet mn "temp" = .ok temp)
    (hfeels : jGet mn "feels_like" = .ok feels)
    (hhum : jGet mn "humidity" = .ok hum)
    (hwind : jGet w "wind" = .ok wnd)
    (hspeed : jGet wnd "speed" = .ok speed)
    (hsr : jGet sys "sunrise" = .ok (.num sr))
    (hss : jGet sys "sunset" = .ok (.num ss)) :
    format_current_weather tz w = .ok
      [("location", city), ("condition", .str (pyCapitalize desc)),
       ("temperature", temp), ("feelsLike", feels), ("humidity", hum),
       ("wind_speed", speed), ("sunrise", .str (timeHM (localEpoch tz sr))),
       ("sunset", .str (timeHM (localEpoch tz ss)))]
    ∧ alistFind
      [("location", city), ("condition", .str (pyCapitalize desc)),
       ("temperature", temp), ("feelsLike", feels), ("humidity", hum),
       ("wind_speed", speed), ("sunrise", .str (timeHM (localEpoch tz sr))),
       ("sunset", .str (timeHM (localEpoch tz ss)))] "country" = none := by
  constructor
  · simp [format_current_weather, hname, hsys, hcountry, hweather, hw0, hdesc,
      hmain, htemp, hfeels, hhum, hwind, hspeed, hsr, hss, asCapitalizable,
      asTimestamp, bind, Except.bind]
  · simp [alistFind]

/-- C3 amended witness: the record shape at the concrete payload
`sampleCurrent`. -/
theorem format_current_weather_record_witness :
    format_current_weather 0 sampleCurrent = .ok
      [("location", .str "London"), ("condition", .str (pyCapitalize "light rain")),
       ("temperature", .num 50), ("feelsLike", .num 48), ("humidity", .num 80),
       ("wind_speed", .num 10), ("sunrise", .str (timeHM (localEpoch 0 1700030000))),
       ("sunset", .str (timeHM (localEpoch 0 1700070000)))]
    ∧ alistFind
      [("location", .str "London"), ("condition", .str (pyCapitalize "light rain")),
       ("temperature", .num 50), ("feelsLike", .num 48), ("humidity", .num 80),
       ("wind_speed", .num 10), ("sunrise", .str (timeHM (localEpoch 0 1700030000))),
       ("sunset", .str (timeHM (localEpoch 0 1700070000)))] "country" = none :=
  format_current_weather_record 0 sampleCurrent
    (.obj [("country", .str "GB"), ("sunrise", .num 1700030000), ("sunset", .num 1700070000)])
    (.arr [.obj [("description", .str "light rain")]])
    (.obj [("description", .str "light rain")])
    (.obj [("temp", .num 50), ("feels_like", .num 48), ("humidity", .num 80)])
    (.obj [("speed", .num 10)])
    (.str "London") (.str "GB") (.num 50) (.num 48) (.num 80) (.num 10)
    "light rain" 1700030000 1700070000
    (by decide) (by decide) (by decide) (by decide) (by decide) (by decide)
    (by decide) (by decide) (by decide) (by decide) (by decide) (by decide)
    (by decide) (by decide)

/-- Helper: `padDigits` always yields exactly its width. -/
theorem padDigits_length (w : Nat) : ∀ n, (padDigits w n).length = w := by
  induction w with
  | zero => intro n; rfl
  | succ w ih => intro n; simp [padDigits, ih]

/-- Helper: zero padding of an in-range value has exactly its width. -/
theorem zeroPad_length (w n : Nat) (h : n < 10 ^ w) : (zeroPad w n).length = w := by
  rw [zeroPad, if_pos h]
  show (padDigits w n).length = w
  exact padDigits_length w n

/-- Helper: an `%H:%M` rendering is always five characters. -/
theorem timeHM_length (u : Nat) : (timeHM u).length = 5 := by
  have h1 : u / 3600 % 24 < 100 := Nat.lt_of_lt_of_le (Nat.mod_lt _ (by norm_num)) (by norm_num)
  have h2 : u / 60 % 60 < 100 := Nat.lt_of_lt_of_le (Nat.mod_lt _ (by norm_num)) (by norm_num)
  have e1 := zeroPad_length 2 _ h1
  have e2 := zeroPad_length 2 _ h2
  simp [timeHM, String.length_append, e1, e2]
  decide

/-- Helper: `pyCapitalize` upper-cases the first character and
lower-cases every later one. -/
theorem pyCapitalize_data (s : String) :
    (pyCapitalize s).data
      = (s.data.take 1).map Char.toUpper ++ (s.data.drop 1).map Char.toLower := by
  obtain ⟨l⟩ := s
  cases l with
  | nil => rfl
  | cons c rest => simp [pyCapitalize, String.toList]

/-- C5: amended — current-weather formatting renders sunrise and sunset
as 24-hour `HH:MM` (two zero-padded two-digit fields, hour below 24,
minute below 60, five characters in all) for every valid epoch
timestamp, and the condition description is capitalized Python-style:
the first character is upper-cased and, contrary to the original claim,
every remaining character is lower-cased rather than left unchanged
(all-lower-case tails such as `light rain` → `Light rain` are
unaffected). -/
theorem format_current_weather_hhmm_and_capitalize (tz : Nat)
    (w sys warr w0 mn wnd : Json)
    (city country temp feels hum speed : Json) (desc : String) (sr ss : Int)
    (hname : jGet w "name" = .ok city)
    (hsys : jGet w "sys" = .ok sys)
    (hcountry : jGet sys "country" = .ok country)
    (hweather : jGet w "weather" = .ok warr)
    (hw0 : jIdx warr 0 = .ok w0)
    (hdesc : jGet w0 "description" = .ok (.str desc))
    (hmain : jGet w "main" = .ok mn)
    (htemp : jGet mn "temp" = .ok temp)
    (hfeels : jGet mn "feels_like" = .ok feels)
    (hhum : jGet mn "humidity" = .ok hum)
    (hwind : jGet w "wind" = .ok wnd)
    (hspeed : jGet wnd "speed" = .ok speed)
    (hsr : jGet sys "sunrise" = .ok (.num sr))
    (hss : jGet sys "sunset" = .ok (.num ss)) :
    ∃ rec, format_current_weather tz w = .ok rec
    ∧ alistFind rec "condition" = some (.str (pyCapitalize desc))
    ∧ alistFind rec "sunrise" = some (.str (timeHM (localEpoch tz sr)))
    ∧ alistFind rec "sunset" = some (.str (timeHM (localEpoch tz ss)))
    ∧ (pyCapitalize desc).data
        = (desc.data.take 1).map Char.toUpper ++ (desc.data.drop 1).map Char.toLower
    ∧ (∀ u : Nat, ∃ hh mm, hh < 24 ∧ mm < 60
        ∧ timeHM u = zeroPad 2 hh ++ ":" ++ zeroPad 2 mm ∧ (timeHM u).length = 5) := by
  have hfmt : format_current_weather tz w = .ok
      [("location", city), ("condition", .str (pyCapitalize desc)),
       ("temperature", temp), ("feelsLike", feels), ("humidity", hum),
       ("wind_speed", speed), ("sunrise", .str (timeHM (localEpoch tz sr))),
       ("sunset", .str (timeHM (localEpoch tz ss)))] := by
    simp [format_current_weather, hname, hsys, hcountry, hweather, hw0, hdesc,
      hmain, htemp, hfeels, hhum, hwind, hspeed, hsr, hss, asCapitalizable,
      asTimestamp, bind, Except.bind]
  refine ⟨_, hfmt, by simp [alistFind], by simp [alistFind], by simp [alistFind],
    pyCapitalize_data desc, fun u => ⟨u / 3600 % 24, u / 60 % 60,
      Nat.mod_lt _ (by norm_num), Nat.mod_lt _ (by norm_num), rfl, timeHM_length u⟩⟩

/-- C5 amended witness: the rendering at the concrete payload
`sampleCurrent`. -/
theorem format_current_weather_hhmm_and_capitalize_witness :
    ∃ rec, format_current_weather 0 sampleCurrent = .ok rec
    ∧ alistFind rec "condition" = some (.str (pyCapitalize "light rain"))
    ∧ alistFind rec "sunrise" = some (.str (timeHM (localEpoch 0 1700030000)))
    ∧ alistFind rec "sunset" = some (.str (timeHM (localEpoch 0 1700070000)))
    ∧ (pyCapitalize "light rain").data
        = (("light rain" : String).data.take 1).map Char.toUpper
          ++ (("light rain" : String).data.drop 1).map Char.toLower
    ∧ (∀ u : Nat, ∃ hh mm, hh < 24 ∧ mm < 60
        ∧ timeHM u = zeroPad 2 hh ++ ":" ++ zeroPad 2 mm ∧ (timeHM u).length = 5) :=
  format_current_weather_hhmm_and_capitalize 0 sampleCurrent
    (.obj [("country", .str "GB"), ("sunrise", .num 1700030000), ("sunset", .num 1700070000)])
    (.arr [.obj [("description", .str "light rain")]])
    (.obj [("description", .str "light rain")])
    (.obj [("temp", .num 50), ("feels_like", .num 48), ("humidity", .num 80)])
    (.obj [("speed", .num 10)])
    (.str "London") (.str "GB") (.num 50) (.num 48) (.num 80) (.num 10)
    "light rain" 1700030000 1700070000
    (by decide) (by decide) (by decide) (by decide) (by decide) (by decide)
    (by decide) (by decide) (by decide) (by decide) (by decide) (by decide)
    (by decide) (by decide)

/-- C9: whichever stage of the fetch-and-format chain raises an
exception — current-weather fetch, current-weather formatting, forecast
fetch or forecast formatting, API errors and lookup errors alike — the
entry point catches it at its single top-level handler and prints exactly
one `Error: <message>` line carrying the unchanged exception text, after
whatever the chain had already printed, and prints nothing further. -/
theorem main_prints_single_error_line (tz : Nat) (env : Env) (http : HttpBehaviour)
    (args : Args) (e : String) :
    ((WeatherAPI.init env.openweather_api_key).get_current_weather http
        args.location args.zip args.country = .error e →
      mainRun tz env http args = ["Error: " ++ e])
    ∧ (∀ cw, (WeatherAPI.init env.openweather_api_key).get_current_weather http
          args.location args.zip args.country = .ok cw →
        format_current_weather tz cw = .error e →
        mainRun tz env http args = ["Error: " ++ e])
    ∧ (∀ cw record, (WeatherAPI.init env.openweather_api_key).get_current_weather http
          args.location args.zip args.country = .ok cw →
        format_current_weather tz cw = .ok record →
        args.forecast = true →
        (WeatherAPI.init env.openweather_api_key).get_forecast http
          args.location args.zip args.country args.days = .error e →
        mainRun tz env http args = [pyDictRepr record, "Error: " ++ e])
    ∧ (∀ cw record fc, (WeatherAPI.init env.openweather_api_key).get_current_weather http
          args.location args.zip args.country = .ok cw →
        format_current_weather tz cw = .ok record →
        args.forecast = true →
        (WeatherAPI.init env.openweather_api_key).get_forecast http
          args.location args.zip args.country args.days = .ok fc →
        format_forecast tz fc args.days = .error e →
        mainRun tz env http args = [pyDictRepr record, "Error: " ++ e]) := by
  refine ⟨fun h1 => ?_, fun cw h1 h2 => ?_, fun cw record h1 h2 h3 h4 => ?_,
    fun cw record fc h1 h2 h3 h4 h5 => ?_⟩
  · simp [mainRun, h1]
  · simp [mainRun, h1, h2]
  · simp [mainRun, h1, h2, h3, h4]
  · simp [mainRun, h1, h2, h3, h4, h5]

/-- C9 witness: with a provider rejecting every request with 401, the
program prints exactly the one line
`Error: API Error (401): Invalid API key`. -/
theorem main_prints_single_error_line_witness :
    mainRun 0 ⟨some "k"⟩ http401 ⟨"London", false, "us", none, false, 3⟩
      = ["Error: API Error (401): Invalid API key"] :=
  (main_prints_single_error_line 0 ⟨some "k"⟩ http401
    ⟨"London", false, "us", none, false, 3⟩ "API Error (401): Invalid API key").1
    (by decide)

/-- Helper: appending an item to the bucket of key `dk` extends exactly
that bucket and leaves every other bucket unchanged. -/
theorem lookupBucket_addToBucket (m : List (String × List Json)) (dk d : String)
    (it : Json) :
    lookupBucket (addToBucket m dk it) d
      = if d = dk then lookupBucket m d ++ [it] else lookupBucket m d := by
  induction m with
  | nil =>
      by_cases h : d = dk
      · subst h; simp [addToBucket, lookupBucket]
      · have h2 : ¬ dk = d := fun hh => h hh.symm
        simp [addToBucket, lookupBucket, h, h2]
  | cons kv rest ih =>
      obtain ⟨k, v⟩ := kv
      by_cases hk : k = dk
      · subst hk
        by_cases hd : d = k
        · subst hd; simp [addToBucket, lookupBucket]
        · have hd2 : ¬ k = d := fun hh => hd hh.symm
          simp [addToBucket, lookupBucket, hd, hd2]
      · by_cases hd : k = d
        · have hne : ¬ d = dk := fun hh => hk (hd.trans hh)
          simp [addToBucket, lookupBucket, hk, hd, hne]
        · simp [addToBucket, lookupBucket, hk, hd, ih]

/-- Helper: a successful grouping fold puts under each day key exactly
the accumulator's bucket followed by the payload samples whose own key is
that day, in payload order. -/
theorem groupFold_ok_lookup (tz : Nat) (d : String) :
    ∀ (items : List Json) (m m2 : List (String × List Json)),
      groupFold tz m items = .ok m2 →
      lookupBucket m2 d = lookupBucket m d
        ++ items.filter (fun it => decide (itemKey tz it = .ok d)) := by
  intro items
  induction items with
  | nil =>
      intro m m2 h
      simp [groupFold] at h
      subst h
      simp
  | cons it rest ih =>
      intro m m2 h
      rw [groupFold] at h
      cases hk : itemKey tz it with
      | error err => rw [hk] at h; simp [bind, Except.bind] at h
      | ok day =>
          rw [hk] at h
          simp only [bind, Except.bind] at h
          have hrest := ih _ _ h
          rw [hrest, lookupBucket_addToBucket, List.filter_cons]
          by_cases hd : d = day
          · subst hd; simp [hk]
          · have hd2 : ¬ day = d := fun hh => hd hh.symm
            simp [hk, hd, hd2]

/-- C10: the samples stored under each day bucket are exactly the payload
samples keyed to that day, in the payload's own order — grouping only
appends, and the per-slot rendering walks the bucket as stored, so slot
lines within a day are never re-sorted by time. -/
theorem forecast_bucket_preserves_payload_order (tz : Nat) (items : List Json)
    (m : List (String × List Json)) (hg : groupFold tz [] items = .ok m)
    (d : String) :
    lookupBucket m d = items.filter (fun it => decide (itemKey tz it = .ok d))
    ∧ slotLines tz (lookupBucket m d)
        = slotLines tz (items.filter (fun it => decide (itemKey tz it = .ok d))) := by
  have h := groupFold_ok_lookup tz d items [] m hg
  simp only [lookupBucket, List.nil_append] at h
  exact ⟨h, by rw [h]⟩

/-- C10 witness: on the concrete payload, the 2023-11-15 bucket is the
third and fourth sample in payload order. -/
theorem forecast_bucket_preserves_payload_order_witness :
    lookupBucket sampleBuckets "2023-11-15"
        = sampleItems.filter (fun it => decide (itemKey 0 it = .ok "2023-11-15"))
    ∧ slotLines 0 (lookupBucket sampleBuckets "2023-11-15")
        = slotLines 0 (sampleItems.filter (fun it => decide (itemKey 0 it = .ok "2023-11-15"))) :=
  forecast_bucket_preserves_payload_order 0 sampleItems sampleBuckets
    (by decide) "2023-11-15"

/-- Helper: the Boolean comparator `listCharLeb` decides exactly the
negation of strict lexicographic order in the reverse direction. -/
theorem listCharLeb_eq_true_iff (x : List Char) : ∀ y,
    (listCharLeb x y = true ↔ ¬ List.Lex (fun c1 c2 => c1 < c2) y x) := by
  induction x with
  | nil =>
      intro y
      cases y with
      | nil =>
          refine ⟨fun _ h => ?_, fun _ => rfl⟩
          cases h
      | cons b bs =>
          exact ⟨fun _ => List.Lex.not_nil_right _ _, fun _ => rfl⟩
  | cons a as ih =>
      intro y
      cases y with
      | nil =>
          refine ⟨fun h => ?_, fun h => ?_⟩
          · exact absurd h (by simp [listCharLeb])
          · exact absurd List.Lex.nil h
      | cons b bs =>
          rw [listCharLeb]
          by_cases hab : a < b
          · rw [if_pos hab]
            refine ⟨fun _ hl => ?_, fun _ => rfl⟩
            cases hl with
            | cons h2 => exact lt_irrefl _ hab
            | rel h2 => exact absurd hab (asymm h2)
          · rw [if_neg hab]
            by_cases hba : b < a
            · rw [if_pos hba]
              refine ⟨fun h => ?_, fun h => ?_⟩
              · exact absurd h (by simp)
              · exact absurd (List.Lex.rel hba) h
            · rw [if_neg hba]
              have heq : b = a := le_antisymm (not_lt.mp hab) (not_lt.mp hba)
              subst heq
              rw [ih bs, List.Lex.cons_iff]

/-- Helper: the sort comparator agrees with `≤` on strings, so sorting by
it is Python string sorting. -/
theorem strLeb_eq_true_iff (a b : String) : strLeb a b = true ↔ a ≤ b := by
  rw [strLeb, listCharLeb_eq_true_iff]
  constructor
  · intro h hba
    exact h (String.lt_iff_toList_lt.mp hba)
  · intro h hlex
    exact h (String.lt_iff_toList_lt.mpr hlex)

/-- C7: on the concrete sample payload — five samples spanning the three
days 2023-11-14 through 2023-11-16 — a requested day count of 2 renders
exactly two day headers, the two earliest days, each followed by one line
per payload sample of that day (time, temperature, capitalized
condition) in ascending time order, and nothing of the third day. -/
theorem format_forecast_sample_two_days :
    (groupFold 0 [] sampleItems).map (fun m => m.map Prod.fst)
      = .ok ["2023-11-14", "2023-11-15", "2023-11-16"]
    ∧ format_forecast 0 sampleForecast 2
      = .ok ("\nWeather Forecast for Austin, US:\n\nTuesday, Nov 14:\n================\n12:00: 60Â°F - Clear sky\n15:00: 58Â°F - Few clouds\n\nWednesday, Nov 15:\n==================\n10:00: 55Â°F - Light rain\n13:00: 57Â°F - Overcast clouds\n") := by
  constructor
  · decide
  · set_option maxRecDepth 100000 in decide

theorem digitChar_lt_iff_fin : ∀ a b : Fin 10,
    (Nat.digitChar a.1 < Nat.digitChar b.1 ↔ a.1 < b.1) := by decide

theorem digitChar_lt_iff_nat (a b : Nat) (ha : a < 10) (hb : b < 10) :
    (Nat.digitChar a < Nat.digitChar b ↔ a < b) :=
  digitChar_lt_iff_fin ⟨a, ha⟩ ⟨b, hb⟩

theorem digitChar_eq_iff_fin : ∀ a b : Fin 10,
    (Nat.digitChar a.1 = Nat.digitChar b.1 ↔ a.1 = b.1) := by decide

theorem digitChar_eq_iff_nat (a b : Nat) (ha : a < 10) (hb : b < 10) :
    (Nat.digitChar a = Nat.digitChar b ↔ a = b) :=
  digitChar_eq_iff_fin ⟨a, ha⟩ ⟨b, hb⟩

theorem charDigitVal_digitChar_fin : ∀ a : Fin 10,
    charDigitVal (Nat.digitChar a.1) = a.1 := by decide

theorem charDigitVal_digitChar (a : Nat) (ha : a < 10) :
    charDigitVal (Nat.digitChar a) = a :=
  charDigitVal_digitChar_fin ⟨a, ha⟩

theorem divmod_lt_iff (p : Nat) (hp : 0 < p) (a b : Nat) :
    a < b ↔ (a / p < b / p ∨ (a / p = b / p ∧ a % p < b % p)) := by
  constructor
  · intro hab
    rcases Nat.lt_trichotomy (a / p) (b / p) with h | h | h
    · exact Or.inl h
    · refine Or.inr ⟨h, ?_⟩
      have e1 := Nat.div_add_mod a p
      have e2 := Nat.div_add_mod b p
      rw [h] at e1
      have h3 : p * (b / p) + a % p < p * (b / p) + b % p := by rw [e1, e2]; exact hab
      exact Nat.lt_of_add_lt_add_left h3
    · exfalso
      have hchain : b < a := by
        calc b = p * (b / p) + b % p := (Nat.div_add_mod b p).symm
          _ < p * (b / p) + p := Nat.add_lt_add_left (Nat.mod_lt b hp) _
          _ = p * (b / p + 1) := by ring
          _ ≤ p * (a / p) := Nat.mul_le_mul_left p h
          _ ≤ p * (a / p) + a % p := Nat.le_add_right _ _
          _ = a := Nat.div_add_mod a p
      exact absurd hab (Nat.lt_asymm hchain)
  · rintro (h | ⟨heq, hlt⟩)
    · calc a = p * (a / p) + a % p := (Nat.div_add_mod a p).symm
        _ < p * (a / p) + p := Nat.add_lt_add_left (Nat.mod_lt a hp) _
        _ = p * (a / p + 1) := by ring
        _ ≤ p * (b / p) := Nat.mul_le_mul_left p h
        _ ≤ p * (b / p) + b % p := Nat.le_add_right _ _
        _ = b := Nat.div_add_mod b p
    · have e1 := Nat.div_add_mod a p
      have e2 := Nat.div_add_mod b p
      rw [heq] at e1
      have h3 : p * (b / p) + a % p < p * (b / p) + b % p := Nat.add_lt_add_left hlt _
      rw [e1, e2] at h3
      exact h3

theorem divmod_eq_iff (p a b : Nat) :
    a = b ↔ (a / p = b / p ∧ a % p = b % p) := by
  refine ⟨fun h => by subst h; exact ⟨rfl, rfl⟩, fun hh => ?_⟩
  have e1 := Nat.div_add_mod a p
  have e2 := Nat.div_add_mod b p
  rw [hh.1, hh.2] at e1
  exact e1.symm.trans e2

theorem charLex_cons_iff (c1 c2 : Char) (t1 t2 : List Char) :
    List.Lex (fun a b => a < b) (c1 :: t1) (c2 :: t2)
      ↔ c1 < c2 ∨ (c1 = c2 ∧ List.Lex (fun a b => a < b) t1 t2) := by
  constructor
  · intro h
    cases h with
    | cons h2 => exact Or.inr ⟨rfl, h2⟩
    | rel h2 => exact Or.inl h2
  · rintro (h | ⟨rfl, h⟩)
    · exact List.Lex.rel h
    · exact List.Lex.cons h

theorem padDigits_lt_iff : ∀ w a b, a < 10 ^ w → b < 10 ^ w →
    (List.Lex (fun c1 c2 => c1 < c2) (padDigits w a) (padDigits w b) ↔ a < b) := by
  intro w
  induction w with
  | zero =>
      intro a b ha hb
      simp only [padDigits]
      constructor
      · intro h; cases h
      · intro h; omega
  | succ w ih =>
      intro a b ha hb
      have hpos : 0 < 10 ^ w := Nat.pos_pow_of_pos w (by norm_num)
      have hqa : a / 10 ^ w < 10 := by
        rw [Nat.div_lt_iff_lt_mul hpos]
        calc a < 10 ^ (w + 1) := ha
          _ = 10 * 10 ^ w := by ring
      have hqb : b / 10 ^ w < 10 := by
        rw [Nat.div_lt_iff_lt_mul hpos]
        calc b < 10 ^ (w + 1) := hb
          _ = 10 * 10 ^ w := by ring
      rw [padDigits, padDigits, charLex_cons_iff,
        digitChar_lt_iff_nat _ _ hqa hqb, digitChar_eq_iff_nat _ _ hqa hqb,
        ih _ _ (Nat.mod_lt _ hpos) (Nat.mod_lt _ hpos)]
      exact (divmod_lt_iff (10 ^ w) hpos a b).symm

theorem padDigits_eq_iff : ∀ w a b, a < 10 ^ w → b < 10 ^ w →
    (padDigits w a = padDigits w b ↔ a = b) := by
  intro w
  induction w with
  | zero =>
      intro a b ha hb
      simp only [padDigits]
      constructor
      · intro _; omega
      · intro _; trivial
  | succ w ih =>
      intro a b ha hb
      have hpos : 0 < 10 ^ w := Nat.pos_pow_of_pos w (by norm_num)
      have hqa : a / 10 ^ w < 10 := by
        rw [Nat.div_lt_iff_lt_mul hpos]
        calc a < 10 ^ (w + 1) := ha
          _ = 10 * 10 ^ w := by ring
      have hqb : b / 10 ^ w < 10 := by
        rw [Nat.div_lt_iff_lt_mul hpos]
        calc b < 10 ^ (w + 1) := hb
          _ = 10 * 10 ^ w := by ring
      rw [padDigits, padDigits, List.cons.injEq,
        digitChar_eq_iff_nat _ _ hqa hqb,
        ih _ _ (Nat.mod_lt _ hpos) (Nat.mod_lt _ hpos)]
      exact (divmod_eq_iff (10 ^ w) a b).symm

theorem lex_append_same_length : ∀ (p1 p2 s1 s2 : List Char), p1.length = p2.length →
    (List.Lex (fun c1 c2 => c1 < c2) (p1 ++ s1) (p2 ++ s2) ↔
      List.Lex (fun c1 c2 => c1 < c2) p1 p2
        ∨ (p1 = p2 ∧ List.Lex (fun c1 c2 => c1 < c2) s1 s2)) := by
  intro p1
  induction p1 with
  | nil =>
      intro p2 s1 s2 hl
      cases p2 with
      | nil =>
          simp only [List.nil_append]
          constructor
          · intro h; exact Or.inr ⟨by trivial, h⟩
          · rintro (h | ⟨_, h⟩)
            · cases h
            · exact h
      | cons c2 cs2 => simp at hl
  | cons c cs ih =>
      intro p2 s1 s2 hl
      cases p2 with
      | nil => simp at hl
      | cons c2 cs2 =>
          simp only [List.cons_append]
          rw [charLex_cons_iff, charLex_cons_iff, ih cs2 s1 s2 (by simpa using hl)]
          simp only [List.cons.injEq]
          tauto

theorem renderYmd_data (y m d : Nat) (hy : y < 10000) (hm : m < 100) (hd2 : d < 100) :
    (renderYmd y m d).data
      = padDigits 4 y ++ '-' :: (padDigits 2 m ++ '-' :: padDigits 2 d) := by
  rw [renderYmd, zeroPad, zeroPad, zeroPad,
    if_pos (show y < 10 ^ 4 by norm_num; omega),
    if_pos (show m < 10 ^ 2 by norm_num; omega),
    if_pos (show d < 10 ^ 2 by norm_num; omega)]
  simp [String.data_append]

theorem renderYmd_lt_iff (y1 m1 d1 y2 m2 d2 : Nat)
    (hy1 : y1 < 10000) (hm1 : m1 < 100) (hd1 : d1 < 100)
    (hy2 : y2 < 10000) (hm2 : m2 < 100) (hd2 : d2 < 100) :
    (renderYmd y1 m1 d1 < renderYmd y2 m2 d2
      ↔ dateNum (y1, m1, d1) < dateNum (y2, m2, d2)) := by
  have h4a : y1 < 10 ^ 4 := by norm_num; omega
  have h4b : y2 < 10 ^ 4 := by norm_num; omega
  have h2a : m1 < 10 ^ 2 := by norm_num; omega
  have h2b : m2 < 10 ^ 2 := by norm_num; omega
  have h2c : d1 < 10 ^ 2 := by norm_num; omega
  have h2d : d2 < 10 ^ 2 := by norm_num; omega
  rw [String.lt_iff_toList_lt]
  have hlex : ((renderYmd y1 m1 d1).toList < (renderYmd y2 m2 d2).toList
      ↔ List.Lex (fun c1 c2 => c1 < c2) (renderYmd y1 m1 d1).data
          (renderYmd y2 m2 d2).data) := Iff.rfl
  rw [hlex, renderYmd_data _ _ _ hy1 hm1 hd1, renderYmd_data _ _ _ hy2 hm2 hd2]
  rw [lex_append_same_length _ _ _ _ (by rw [padDigits_length, padDigits_length])]
  rw [charLex_cons_iff]
  rw [lex_append_same_length _ _ _ _ (by rw [padDigits_length, padDigits_length])]
  rw [charLex_cons_iff]
  rw [padDigits_lt_iff 4 _ _ h4a h4b, padDigits_eq_iff 4 _ _ h4a h4b,
    padDigits_lt_iff 2 _ _ h2a h2b, padDigits_eq_iff 2 _ _ h2a h2b,
    padDigits_lt_iff 2 _ _ h2c h2d]
  have hdash : ¬ ('-' < '-') := by decide
  simp only [dateNum, hdash, false_or, true_and, eq_self_iff_true]
  omega

theorem renderYmd_le_iff (y1 m1 d1 y2 m2 d2 : Nat)
    (hy1 : y1 < 10000) (hm1 : m1 < 100) (hd1 : d1 < 100)
    (hy2 : y2 < 10000) (hm2 : m2 < 100) (hd2 : d2 < 100) :
    (renderYmd y1 m1 d1 ≤ renderYmd y2 m2 d2
      ↔ dateNum (y1, m1, d1) ≤ dateNum (y2, m2, d2)) := by
  rw [← not_lt, ← Nat.not_lt]
  exact not_congr (renderYmd_lt_iff y2 m2 d2 y1 m1 d1 hy2 hm2 hd2 hy1 hm1 hd1)

theorem parseDate_renderYmd (y m d : Nat) (hy : y < 10000) (hm : m < 100) (hd2 : d < 100) :
    parseDate (renderYmd y m d) = (y, m, d) := by
  have hdata := renderYmd_data y m d hy hm hd2
  have h10 : (renderYmd y m d).toList
      = [Nat.digitChar (y / 1000), Nat.digitChar (y % 1000 / 100),
         Nat.digitChar (y % 1000 % 100 / 10), Nat.digitChar (y % 1000 % 100 % 10), '-',
         Nat.digitChar (m / 10), Nat.digitChar (m % 10), '-',
         Nat.digitChar (d / 10), Nat.digitChar (d % 10)] := by
    rw [show (renderYmd y m d).toList = (renderYmd y m d).data from rfl, hdata]
    norm_num [padDigits]
  simp only [parseDate, h10]
  rw [charDigitVal_digitChar _ (by omega), charDigitVal_digitChar _ (by omega),
    charDigitVal_digitChar _ (by omega), charDigitVal_digitChar _ (by omega),
    charDigitVal_digitChar _ (by omega), charDigitVal_digitChar _ (by omega),
    charDigitVal_digitChar _ (by omega), charDigitVal_digitChar _ (by omega)]
  simp only [Prod.mk.injEq]
  omega

theorem keys_addToBucket (m : List (String × List Json)) (d : String) (it : Json) :
    (addToBucket m d it).map Prod.fst
      = if d ∈ m.map Prod.fst then m.map Prod.fst else m.map Prod.fst ++ [d] := by
  induction m with
  | nil => simp [addToBucket]
  | cons kv rest ih =>
      obtain ⟨k, v⟩ := kv
      by_cases hk : k = d
      · subst hk
        simp [addToBucket]
      · have hdk : ¬ d = k := fun h => hk h.symm
        simp [addToBucket, hk, ih, hdk]
        by_cases hmem : d ∈ rest.map Prod.fst
        · simp [hmem]
        · simp [hmem, hdk]

theorem groupFold_ok_nodup_keys (tz : Nat) :
    ∀ (items : List Json) (m m2 : List (String × List Json)),
      groupFold tz m items = .ok m2 →
      (m.map Prod.fst).Nodup → (m2.map Prod.fst).Nodup := by
  intro items
  induction items with
  | nil =>
      intro m m2 h hnd
      simp [groupFold] at h
      subst h
      exact hnd
  | cons it rest ih =>
      intro m m2 h hnd
      rw [groupFold] at h
      cases hk : itemKey tz it with
      | error err => rw [hk] at h; simp [bind, Except.bind] at h
      | ok day =>
          rw [hk] at h
          simp only [bind, Except.bind] at h
          refine ih _ _ h ?_
          rw [keys_addToBucket]
          by_cases hmem : day ∈ m.map Prod.fst
          · simp [hmem, hnd]
          · simp only [hmem, if_false]
            rw [List.nodup_append]
            exact ⟨hnd, List.nodup_singleton day, by simpa using hmem⟩

theorem groupFold_ok_keys_from (tz : Nat) :
    ∀ (items : List Json) (m m2 : List (String × List Json)),
      groupFold tz m items = .ok m2 →
      ∀ k, k ∈ m2.map Prod.fst →
        k ∈ m.map Prod.fst ∨ ∃ it ∈ items, itemKey tz it = .ok k := by
  intro items
  induction items with
  | nil =>
      intro m m2 h k hk
      simp [groupFold] at h
      subst h
      exact Or.inl hk
  | cons it rest ih =>
      intro m m2 h k hk
      rw [groupFold] at h
      cases hday : itemKey tz it with
      | error err => rw [hday] at h; simp [bind, Except.bind] at h
      | ok day =>
          rw [hday] at h
          simp only [bind, Except.bind] at h
          rcases ih _ _ h k hk with hin | ⟨it2, hit2, hk2⟩
          · rw [keys_addToBucket] at hin
            by_cases hmem : day ∈ m.map Prod.fst
            · rw [if_pos hmem] at hin
              exact Or.inl hin
            · rw [if_neg hmem] at hin
              rcases List.mem_append.mp hin with hin2 | hin2
              · exact Or.inl hin2
              · refine Or.inr ⟨it, List.mem_cons_self it rest, ?_⟩
                rw [hday]
                simp at hin2
                rw [hin2]
          · exact Or.inr ⟨it2, List.mem_cons_of_mem it hit2, hk2⟩

/-- C6: a successful grouping pass places every sample in exactly one day
bucket — the bucket of its own local calendar date key, holding precisely
the payload samples keyed to that date — and the day keys the formatter
then walks are the distinct keys sorted lexicographically as strings,
cut down by Python slicing to the first `days` of them; for keys of the
shape the formatter produces, that lexicographic order is chronological
order of the calendar dates (non-decreasing `dateNum`). -/
theorem forecast_grouped_sorted_truncated (tz : Nat) (days : Int)
    (items : List Json) (m : List (String × List Json))
    (hg : groupFold tz [] items = .ok m)
    (hd : 0 ≤ days)
    (hb : ∀ it ∈ items, itemKeyWellFormed tz it) :
    (∀ d, lookupBucket m d = items.filter (fun it => decide (itemKey tz it = .ok d)))
    ∧ pySlice (sortedDayKeys m) days = (sortedDayKeys m).take days.toNat
    ∧ List.Sorted (fun a b : String => a ≤ b) (pySlice (sortedDayKeys m) days)
    ∧ (pySlice (sortedDayKeys m) days).Nodup
    ∧ List.Pairwise (fun a b => dateNum (parseDate a) ≤ dateNum (parseDate b))
        (pySlice (sortedDayKeys m) days) := by
  have hbuckets : ∀ d, lookupBucket m d
      = items.filter (fun it => decide (itemKey tz it = .ok d)) := by
    intro d
    have h := groupFold_ok_lookup tz d items [] m hg
    simpa [lookupBucket] using h
  have hslice : pySlice (sortedDayKeys m) days = (sortedDayKeys m).take days.toNat := by
    rw [pySlice, if_pos hd]
  haveI hT : IsTotal String (fun a b => strLeb a b = true) := ⟨fun a b => by
    rw [strLeb_eq_true_iff, strLeb_eq_true_iff]
    exact le_total a b⟩
  haveI hTr : IsTrans String (fun a b => strLeb a b = true) := ⟨fun a b c h1 h2 => by
    rw [strLeb_eq_true_iff] at h1 h2 ⊢
    exact le_trans h1 h2⟩
  have hsorted0 : List.Sorted (fun a b => strLeb a b = true) (sortedDayKeys m) :=
    List.sorted_insertionSort _ _
  have hsortedLe : List.Sorted (fun a b : String => a ≤ b) (sortedDayKeys m) :=
    List.Pairwise.imp (fun h => (strLeb_eq_true_iff _ _).mp h) hsorted0
  have hkeysnd : (m.map Prod.fst).Nodup :=
    groupFold_ok_nodup_keys tz items [] m hg (by simp)
  have hperm : (sortedDayKeys m).Perm (m.map Prod.fst) :=
    List.perm_insertionSort _ _
  have hsortnd : (sortedDayKeys m).Nodup := hperm.nodup_iff.mpr hkeysnd
  have hwf : ∀ k ∈ sortedDayKeys m, wellFormedKey k := by
    intro k hkmem
    have hk2 : k ∈ m.map Prod.fst := hperm.mem_iff.mp hkmem
    rcases groupFold_ok_keys_from tz items [] m hg k hk2 with h0 | ⟨it, hit, hik⟩
    · simp at h0
    · exact hb it hit k hik
  have hpair : List.Pairwise
      (fun a b => dateNum (parseDate a) ≤ dateNum (parseDate b)) (sortedDayKeys m) := by
    refine List.Pairwise.imp_of_mem ?_ hsortedLe
    intro a b ha hbmem hab
    obtain ⟨ha1, ha2, ha3, ha4⟩ := hwf a ha
    obtain ⟨hb1, hb2, hb3, hb4⟩ := hwf b hbmem
    rw [ha4, hb4] at hab
    have hle := (renderYmd_le_iff _ _ _ _ _ _ ha1 ha2 ha3 hb1 hb2 hb3).mp hab
    simpa [dateNum] using hle
  refine ⟨hbuckets, hslice, ?_, ?_, ?_⟩
  · rw [hslice]
    exact List.Pairwise.sublist (List.take_sublist _ _) hsortedLe
  · rw [hslice]
    exact List.Nodup.sublist (List.take_sublist _ _) hsortnd
  · rw [hslice]
    exact List.Pairwise.sublist (List.take_sublist _ _) hpair

/-- C6 witness: the grouping, sorting, truncation and chronological-order
conclusions at the concrete five-sample payload with a day count of 2. -/
theorem forecast_grouped_sorted_truncated_witness :
    lookupBucket sampleBuckets "2023-11-15"
        = sampleItems.filter (fun it => decide (itemKey 0 it = .ok "2023-11-15"))
    ∧ pySlice (sortedDayKeys sampleBuckets) 2
        = (sortedDayKeys sampleBuckets).take (2 : Int).toNat
    ∧ List.Sorted (fun a b : String => a ≤ b) (pySlice (sortedDayKeys sampleBuckets) 2)
    ∧ (pySlice (sortedDayKeys sampleBuckets) 2).Nodup
    ∧ List.Pairwise (fun a b => dateNum (parseDate a) ≤ dateNum (parseDate b))
        (pySlice (sortedDayKeys sampleBuckets) 2) := by
  have h := forecast_grouped_sorted_truncated 0 2 sampleItems sampleBuckets
    (by decide) (by decide) (by decide)
  exact ⟨h.1 "2023-11-15", h.2.1, h.2.2.1, h.2.2.2.1, h.2.2.2.2⟩
